import Mathlib

/-
  Verification development for the MEGA-FLOWZ pyramid engine
  (src/config.py, src/pyramid_engine.py, src/mt5_connector.py).

  Shallow embedding conventions:
  * candle timestamps are minutes since an arbitrary epoch (Int);
    timeframe durations are in minutes, matching config.TIMEFRAME_DURATIONS;
  * prices are exact rationals (Rat) in place of Python floats;
  * a pandas DataFrame is a List Row in storage order; an absent key in the
    per-timeframe dict and an empty DataFrame are merged into the empty list,
    which is faithful because every use site tests
    `tf not in data or data[tf].empty` and treats both identically;
  * datetime.now() is modelled as an explicit `now : Int` parameter;
  * strftime / printf-style display formatting is modelled as exact decimal
    rendering of the underlying number (the claims never constrain the
    rendered text, only which fields exist and how they are derived).
-/

namespace MegaFlowz

/-- config.TIMEFRAME_DURATIONS (config.py lines 31-33): timeframe label to
duration in minutes. A missing key raises KeyError in Python; here lookup
returns none. -/
def TIMEFRAME_DURATIONS : String → Option Int := fun tf =>
  (([(("D1" : String), (1440 : Int)), ("H4", 240), ("H1", 60),
     ("M15", 15), ("M5", 5), ("M1", 1)]).lookup tf)

/-- Total wrapper for TIMEFRAME_DURATIONS; unknown labels (which would raise
KeyError in Python and never produce a pyramid) default to 0, making the
parent interval empty. -/
def durationMinutes (tf : String) : Int := (TIMEFRAME_DURATIONS tf).getD 0

/-- One candle row of a fetched DataFrame: time, open, high, low, close,
tick_volume (mt5_connector.fetch_timeframe_data columns). `o` stands for the
open price since `open` is a Lean keyword. -/
structure Row where
  time : Int
  o : Rat
  h : Rat
  l : Rat
  c : Rat
  volume : Int
deriving DecidableEq, Repr

/-- Momentum column: close - open (pyramid_engine.py line 103). -/
def momentumOf (r : Row) : Rat := r.c - r.o

/-- Direction symbol: green / red / white circle from the sign of Momentum
(pyramid_engine.py line 104). -/
inductive Dir where
  | up : Dir
  | down : Dir
  | flat : Dir
deriving DecidableEq, Repr

/-- Dir column (pyramid_engine.py line 104). -/
def dirOf (r : Row) : Dir :=
  if 0 < momentumOf r then Dir.up else if momentumOf r < 0 then Dir.down else Dir.flat

/-- The 0.00001 epsilon used by the denominator guards. -/
def eps : Rat := 1 / 100000

/-- Wick_Ratio column (pyramid_engine.py lines 110-113): the denominator
close - low is replaced by eps only when it is exactly zero, then the
absolute value of the quotient is taken. -/
def wickRatio (r : Row) : Rat :=
  |(r.h - r.c) / (if r.c - r.l = 0 then eps else r.c - r.l)|

/-- Body_Strength column (pyramid_engine.py lines 116-118): |close - open|
divided by the range, with the range replaced by eps only when exactly zero. -/
def bodyStrength (r : Row) : Rat :=
  |r.c - r.o| / (if r.h - r.l = 0 then eps else r.h - r.l)

/-- Modelled from the spec: the spec formula for the wick ratio,
|high - close| / max(close - low, eps), to be compared with `wickRatio`. -/
def wickRatioSpec (r : Row) : Rat := |r.h - r.c| / max (r.c - r.l) eps

/-- Modelled from the spec: the spec formula for body strength,
|close - open| / max(high - low, eps), to be compared with `bodyStrength`. -/
def bodyStrengthSpec (r : Row) : Rat := |r.c - r.o| / max (r.h - r.l) eps

/-- Momentum_Acceleration column (pyramid_engine.py line 107):
(close[i] - close[i-1]) - (close[i-1] - close[i-2]) in storage order; the
first two rows are NaN (none here) because of the double shift. -/
def momAccelAt (df : List Row) (i : Nat) : Option Rat :=
  match df[i]?, df[i-1]?, df[i-2]? with
  | some a, some b, some c2 => if 2 ≤ i then some ((a.c - b.c) - (b.c - c2.c)) else none
  | _, _, _ => none

/-- True range at a storage index (pyramid_engine.py lines 121-124): for the
first row the prev-close terms are NaN and pandas max skips them, leaving
high - low. -/
def trAt (df : List Row) (i : Nat) : Rat :=
  match df[i]? with
  | none => 0
  | some r =>
    match (if i = 0 then none else df[i-1]?) with
    | none => r.h - r.l
    | some p => max (r.h - r.l) (max (|r.h - p.c|) (|r.l - p.c|))

/-- pandas rolling(w, min_periods=1).mean() of an indexed value: the mean of
the at most w samples ending at index i (all indices from max(i+1-w,0) to i). -/
def rollingMean (f : Nat → Rat) (w : Nat) (i : Nat) : Rat :=
  let idxs := (List.range (i + 1)).drop (i + 1 - w)
  (idxs.map f).sum / (idxs.length : Rat)

/-- ATR column (pyramid_engine.py line 125): 14-period rolling mean of the
true range, min_periods 1; none past the end of the series. -/
def atrAt (df : List Row) (i : Nat) : Option Rat :=
  if i < df.length then some (rollingMean (trAt df) 14 i) else none

/-- One field of get_momentum_summary (pyramid_engine.py lines 129-145);
a NaN value renders as a dash placeholder. -/
def fmtField (label : String) (v : Option Rat) : String :=
  label ++ (match v with | some q => toString q | none => "--")

/-- get_momentum_summary (pyramid_engine.py lines 129-145): the summary text
for row i of its own DataFrame. -/
def get_momentum_summary (df : List Row) (i : Nat) : String :=
  fmtField ("MOM: ") (momAccelAt df i) ++ " | " ++
  fmtField ("WICK: ") ((df[i]?).map wickRatio) ++ " | " ++
  fmtField ("BODY: ") ((df[i]?).map bodyStrength) ++ " | " ++
  fmtField ("ATR: ") (atrAt df i)

/-- get_time_range (pyramid_engine.py lines 150-160); strftime rendering is
modelled as decimal rendering of the minute timestamp. -/
def get_time_range (t : Int) (tf : String) : String :=
  let start := toString t
  if tf = "D1" then ("[" ++ start ++ "]")
  else
    let endMin : Int :=
      (([(("M1" : String), (0 : Int)), ("M5", 4), ("M15", 14),
         ("H1", 59), ("H4", 239)]).lookup tf).getD 0
    let e := toString (t + endMin)
    if tf = "M1" then ("[" ++ start ++ "]") else ("[" ++ start ++ "-" ++ e ++ "]")

/-- Python round(x, 5) (pyramid_engine.py lines 196-199), modelled as exact
half-up rounding to 5 decimal places on rationals. -/
def round5 (q : Rat) : Rat := ((round (q * 100000) : Int) : Rat) / 100000

/-- A block of the pyramid JSON (pyramid_engine.py lines 192-204 and
211-223): tf, time, range, O, H, L, C, volume, dir, momentum_summary,
children. -/
inductive Block where
  | mk (tf : String) (time : Int) (rng : String) (o h l c : Rat)
       (volume : Int) (dir : Dir) (summary : String)
       (children : List Block) : Block

def Block.tf : Block → String
  | .mk tf _ _ _ _ _ _ _ _ _ _ => tf

def Block.time : Block → Int
  | .mk _ t _ _ _ _ _ _ _ _ _ => t

def Block.o : Block → Rat
  | .mk _ _ _ o _ _ _ _ _ _ _ => o

def Block.h : Block → Rat
  | .mk _ _ _ _ h _ _ _ _ _ _ => h

def Block.l : Block → Rat
  | .mk _ _ _ _ _ l _ _ _ _ _ => l

def Block.c : Block → Rat
  | .mk _ _ _ _ _ _ c _ _ _ _ => c

def Block.volume : Block → Int
  | .mk _ _ _ _ _ _ _ v _ _ _ => v

def Block.dir : Block → Dir
  | .mk _ _ _ _ _ _ _ _ d _ _ => d

def Block.children : Block → List Block
  | .mk _ _ _ _ _ _ _ _ _ _ ch => ch

/-- The in-range predicate of get_children (pyramid_engine.py line 187):
start <= time < start + duration(parent_tf). -/
def inParentRange (startT endT : Int) (r : Row) : Bool :=
  decide (startT ≤ r.time) && decide (r.time < endT)

/-- Build one child or base block from a row of its DataFrame
(pyramid_engine.py lines 191-204: the summary index is the first storage
index whose time equals the row's time). -/
def mkBlock (df : List Row) (tf : String) (r : Row) (children : List Block) : Block :=
  Block.mk tf r.time (get_time_range r.time tf)
    (round5 r.o) (round5 r.h) (round5 r.l) (round5 r.c) r.volume (dirOf r)
    (get_momentum_summary df (df.findIdx (fun r2 => r2.time == r.time)))
    children

/-- get_children (pyramid_engine.py lines 173-206). `rest` is the part of
pyramid_structure strictly below the current level, so the original guard
`level + 1 >= len(structure)` becomes `rest = []`. The filtered rows keep
the DataFrame's storage order, exactly as a pandas boolean mask does. -/
def get_children (data : String → List Row) (rest : List String)
    (parentTime : Int) (parentTf : String) : List Block :=
  match rest with
  | [] => []
  | childTf :: rest' =>
    let df := data childTf
    if df = [] then []
    else
      let startT := parentTime
      let endT := parentTime + durationMinutes parentTf
      let childrenDf := df.filter (inParentRange startT endT)
      childrenDf.map (fun r => mkBlock df childTf r (get_children data rest' r.time childTf))

/-- Engine configuration as set by configure_pyramid
(pyramid_engine.py lines 37-45); symbol and style are None before
configuration, hence Option. -/
structure EngineConfig where
  symbol : Option String
  pyramid_style : Option String
  pyramid_structure : List String
  extract_count : Nat
deriving DecidableEq, Repr

/-- base_tf = pyramid_structure[0] (pyramid_engine.py line 42); an empty
structure would raise IndexError in Python and is given the out-of-band
empty label here. -/
def EngineConfig.baseTf (cfg : EngineConfig) : String :=
  cfg.pyramid_structure.headD ("")

/-- Python `x or "Unknown"`: None and the empty string both fall back. -/
def orUnknown (x : Option String) : String :=
  match x with
  | some s => if s = ("") then ("Unknown") else s
  | none => ("Unknown")

/-- The top-level pyramid record (pyramid_engine.py lines 226-234). -/
structure Pyramid where
  symbol : Option String
  style : Option String
  pyramid_structure : List String
  generated : Int
  blocks : List Block

/-- Python _create_empty_pyramid (pyramid_engine.py lines 236-244). -/
def create_empty_pyramid (cfg : EngineConfig) (now : Int) : Pyramid :=
  { symbol := some (orUnknown cfg.symbol)
    style := some (orUnknown cfg.pyramid_style)
    pyramid_structure := cfg.pyramid_structure
    generated := now
    blocks := [] }

/-- build_pyramid_json (pyramid_engine.py lines 165-234). `now` stands for
datetime.now() at the moment of the call. -/
def build_pyramid_json (cfg : EngineConfig) (data : String → List Row) (now : Int) : Pyramid :=
  if data cfg.baseTf = [] then create_empty_pyramid cfg now
  else
    let baseDf := (data cfg.baseTf).take cfg.extract_count
    let blocks := baseDf.map (fun r =>
      mkBlock baseDf cfg.baseTf r
        (get_children data cfg.pyramid_structure.tail r.time cfg.baseTf))
    { symbol := cfg.symbol
      style := cfg.pyramid_style
      pyramid_structure := cfg.pyramid_structure
      generated := now
      blocks := blocks }

/-
  Multi-symbol cache (pyramid_engine.py lines 50-95).
  A Python dict is modelled as an association list read through
  List.lookup (first match wins); dict assignment prepends, which shadows
  any older binding, so reads behave exactly like dict indexing.
-/

/-- Per-timeframe raw-data map of one symbol (timeframe label to series). -/
abbrev RawData := List (String × List Row)

/-- The engine's mutable cache state (pyramid_engine.py lines 22-29). -/
structure EngineState where
  pyramid_cache : List (String × Pyramid)
  raw_data_cache : List (String × RawData)
  current_symbol : Option String
  latest_pyramid : Option Pyramid
  latest_raw_data : Option RawData

/-- get_pyramid_for_symbol (pyramid_engine.py lines 50-60): return the cached
pyramid, or lazily create, cache and return an empty one whose symbol field
is overwritten with the requested symbol. Returns the pyramid and the state
after the call. -/
def get_pyramid_for_symbol (cfg : EngineConfig) (st : EngineState) (symbol : String)
    (now : Int) : Pyramid × EngineState :=
  match st.pyramid_cache.lookup symbol with
  | some p => (p, st)
  | none =>
    let ep0 := create_empty_pyramid cfg now
    let ep := { ep0 with symbol := some symbol }
    (ep, { st with pyramid_cache := (symbol, ep) :: st.pyramid_cache })

/-- The first assignment of update_symbol_data (pyramid_engine.py line 75):
`self.pyramid_cache[symbol] = pyramid_data`. -/
def updatePyramidCache (st : EngineState) (symbol : String) (pd : Pyramid) : EngineState :=
  { st with pyramid_cache := (symbol, pd) :: st.pyramid_cache }

/-- The second assignment of update_symbol_data (pyramid_engine.py line 76):
`self.raw_data_cache[symbol] = raw_data`. -/
def updateRawCache (st : EngineState) (symbol : String) (rd : RawData) : EngineState :=
  { st with raw_data_cache := (symbol, rd) :: st.raw_data_cache }

/-- The legacy tail of update_symbol_data (pyramid_engine.py lines 79-81). -/
def updateLegacy (st : EngineState) (symbol : String) (rd : RawData) (pd : Pyramid) : EngineState :=
  if st.current_symbol = some symbol then
    { st with latest_pyramid := some pd, latest_raw_data := some rd }
  else st

/-- update_symbol_data (pyramid_engine.py lines 72-83): the three steps run
in program order; each Python statement is one atomic step of the model. -/
def update_symbol_data (st : EngineState) (symbol : String) (rd : RawData) (pd : Pyramid) : EngineState :=
  updateLegacy (updateRawCache (updatePyramidCache st symbol pd) symbol rd) symbol rd pd

/-- What a reader observes for one symbol: the pyramid-cache entry paired
with the raw-data-cache entry (the reads done by the dashboard's
get_pyramid_for_symbol / get_raw_data_for_symbol pair). -/
def readEntry (st : EngineState) (symbol : String) : Option Pyramid × Option RawData :=
  (st.pyramid_cache.lookup symbol, st.raw_data_cache.lookup symbol)

/-
  Chart data (pyramid_engine.py lines 512-532).
-/

/-- One plot point of get_chart_data; x is the JavaScript millisecond
timestamp of the candle's minute timestamp. -/
structure ChartPoint where
  x : Int
  y : Rat
  o : Rat
  h : Rat
  l : Rat
  c : Rat
  volume : Int
deriving DecidableEq, Repr

/-- The per-row point built by get_chart_data (pyramid_engine.py lines 520-529). -/
def rowToChartPoint (r : Row) : ChartPoint :=
  { x := r.time * 60000, y := r.c, o := r.o, h := r.h, l := r.l, c := r.c, volume := r.volume }

/-- get_chart_data (pyramid_engine.py lines 512-532): empty when the
timeframe is absent or empty, otherwise the rows in storage order turned
into points and then reversed. -/
def get_chart_data (data : String → List Row) (tf : String) : List ChartPoint :=
  if data tf = [] then []
  else ((data tf).map rowToChartPoint).reverse

/-
  RSI (pyramid_engine.py lines 280-288, inside calculate_technical_indicators).
-/

/-- delta = close.diff() at index i: close[i] - close[i-1], NaN (none) at
index 0. -/
def deltaAt (close : List Rat) (i : Nat) : Option Rat :=
  match close[i]?, close[i-1]? with
  | some a, some b => if 1 ≤ i then some (a - b) else none
  | _, _ => none

/-- delta.where(delta > 0, 0) at index i; pandas where sends the NaN of
index 0 to the replacement 0 as well. -/
def gainAt (close : List Rat) (i : Nat) : Rat :=
  match deltaAt close i with
  | some d => if 0 < d then d else 0
  | none => 0

/-- Negated delta, filtered: (-delta).where(delta < 0, 0) at index i. -/
def lossAt (close : List Rat) (i : Nat) : Rat :=
  match deltaAt close i with
  | some d => if d < 0 then -d else 0
  | none => 0

/-- The clamped RSI window min(rsi_period, len(df)). -/
def rsiWindow (close : List Rat) (period : Nat) : Nat := min period close.length

/-- Average gain: rolling mean of the gains over the clamped window. -/
def avgGainAt (close : List Rat) (period : Nat) (i : Nat) : Rat :=
  rollingMean (gainAt close) (rsiWindow close period) i

/-- Average loss: rolling mean of the losses over the clamped window. -/
def avgLossAt (close : List Rat) (period : Nat) (i : Nat) : Rat :=
  rollingMean (lossAt close) (rsiWindow close period) i

/-- rs = gain / loss.replace(0, 0.00001) (pyramid_engine.py line 287). -/
def rsAt (close : List Rat) (period : Nat) (i : Nat) : Rat :=
  avgGainAt close period i /
    (if avgLossAt close period i = 0 then eps else avgLossAt close period i)

/-- RSI = 100 - 100 / (1 + rs) (pyramid_engine.py line 288). -/
def rsiAt (close : List Rat) (period : Nat) (i : Nat) : Rat :=
  100 - 100 / (1 + rsAt close period i)

/-- The RSI column produced by calculate_technical_indicators: series with
fewer than 20 rows are returned without indicator columns
(pyramid_engine.py lines 253-254), modelled as the empty column. -/
def rsiColumn (close : List Rat) (period : Nat) : List Rat :=
  if close.length < 20 then []
  else (List.range close.length).map (rsiAt close period)

/-
  Support / resistance (pyramid_engine.py lines 479-507).
-/

/-- The high at a storage index (out-of-range reads would raise in Python
and are given a junk 0 here; the loop below never goes out of range). -/
def highAt (df : List Row) (i : Nat) : Rat := ((df[i]?).map Row.h).getD 0

/-- The low at a storage index. -/
def lowAt (df : List Row) (i : Nat) : Rat := ((df[i]?).map Row.l).getD 0

/-- Swing-high test at index i (pyramid_engine.py lines 488-489): the high
strictly above every high within lookback candles on both sides. -/
def isSwingHigh (df : List Row) (lookback i : Nat) : Bool :=
  (List.range lookback).all (fun j =>
    decide (highAt df (i - (j+1)) < highAt df i) &&
    decide (highAt df (i + (j+1)) < highAt df i))

/-- Swing-low test at index i (pyramid_engine.py lines 496-497). -/
def isSwingLow (df : List Row) (lookback i : Nat) : Bool :=
  (List.range lookback).all (fun j =>
    decide (lowAt df i < lowAt df (i - (j+1))) &&
    decide (lowAt df i < lowAt df (i + (j+1))))

/-- Append a level unless a recorded level is within 0.1% relative distance
(pyramid_engine.py lines 492 and 500). -/
def addLevel (levels : List Rat) (level : Rat) : List Rat :=
  if levels.all (fun ex => decide ((1 : Rat)/1000 ≤ |level - ex| / ex)) then
    levels ++ [level]
  else levels

/-- calculate_support_resistance (pyramid_engine.py lines 479-507): returns
(support levels, resistance levels). Series shorter than twice the lookback
yield empty lists; otherwise one pass over indices lookback..len-lookback-1
accumulates swing lows/highs with deduplication, then supports keep their 5
largest sorted values and resistances their 5 smallest sorted values. -/
def calculate_support_resistance (df : List Row) (lookback : Nat) : List Rat × List Rat :=
  if df.length < lookback * 2 then ([], [])
  else
    let idxs := (List.range (df.length - lookback)).drop lookback
    let levels := idxs.foldl
      (fun acc i =>
        let acc1 := if isSwingHigh df lookback i then
            (acc.1, addLevel acc.2 (highAt df i)) else acc
        if isSwingLow df lookback i then
          (addLevel acc1.1 (lowAt df i), acc1.2) else acc1)
      (([], []) : List Rat × List Rat)
    let ss := levels.1.mergeSort (fun a b => decide (a ≤ b))
    let rs := levels.2.mergeSort (fun a b => decide (a ≤ b))
    (ss.drop (ss.length - 5), rs.take 5)

/-
  Recursive containment check over a block tree: every block's children
  lie in the half-open interval that starts at the block's own time and
  spans the block's own timeframe duration.
-/

mutual

/-- True when every child of this block has time in
[block.time, block.time + duration(block.tf)) and recursively satisfies the
same property. -/
def Block.boundsOk : Block → Bool
  | .mk tf t _ _ _ _ _ _ _ _ children => blocksBoundsOk t tf children

/-- The children-list form of `Block.boundsOk` for a given parent time and
parent timeframe. -/
def blocksBoundsOk : Int → String → List Block → Bool
  | _, _, [] => true
  | t, tf, b :: bs =>
    (decide (t ≤ b.time) && decide (b.time < t + durationMinutes tf) && Block.boundsOk b)
      && blocksBoundsOk t tf bs

end

/-
  Concrete fixtures used by witnesses and counterexamples.
-/

/-- A test candle with the given time and prices and tick_volume 3. -/
def mkRow (t : Int) (o h l c : Rat) : Row :=
  { time := t, o := o, h := h, l := l, c := c, volume := 3 }

/-- A daily-over-H4 engine configuration. -/
def cfgB : EngineConfig :=
  { symbol := some ("EURUSD"), pyramid_style := some ("daily"),
    pyramid_structure := ["D1", "H4"], extract_count := 10 }

/-- Newest-first series as fetch_timeframe_data stores them: one D1 candle
at minute 0 and five H4 candles, the first of which (minute 1440) lies
outside the D1 candle's day. -/
def dataB : String → List Row := fun tf =>
  if tf = "D1" then [mkRow 0 1 2 0 2]
  else if tf = "H4" then
    [mkRow 1440 1 2 0 1, mkRow 720 1 2 0 1, mkRow 480 1 2 0 1,
     mkRow 240 1 2 0 1, mkRow 0 1 2 0 1]
  else []

/-- A one-timeframe data map holding two M1 candles stored oldest-first
(ascending time), the opposite of the fetcher's storage order. -/
def dataAsc : String → List Row := fun tf =>
  if tf = "M1" then [mkRow 0 1 1 1 1, mkRow 1 1 1 1 1] else []

/-- A newest-first H4 series used by the child-ordering witness. -/
def dataDesc : String → List Row := fun tf =>
  if tf = "H4" then [mkRow 240 1 2 0 1, mkRow 0 1 2 0 1] else []

/-- A candle whose close sits one millionth above its low: the distance to
the low is positive but smaller than eps. -/
def rowTiny : Row := { time := 0, o := 1, h := 2, l := 1, c := 1 + 1/1000000, volume := 3 }

/-- A candle whose full range is one millionth: positive but smaller than
eps. -/
def rowTiny2 : Row := { time := 0, o := 2, h := 1 + 1/1000000, l := 1, c := 1, volume := 3 }

/-- A flat doji candle: high = low = close = open. -/
def rowDoji : Row := { time := 0, o := 1, h := 1, l := 1, c := 1, volume := 3 }

/-- Twenty integer-valued closes for the RSI witness data. -/
def closes20 : List Rat := (List.range 20).map (fun i => (i : Rat))

/-- A 39-candle series in which every high differs, for the
support/resistance witness. -/
def df39 : List Row := (List.range 39).map (fun i => mkRow i 1 ((i : Rat) + 1) 0 1)

/-- Two distinct pyramids and raw-data maps for the cache-replacement
counterexample: only the generated stamp and the stored series differ. -/
def pyrA : Pyramid :=
  { symbol := some ("EURUSD"), style := some ("daily"), pyramid_structure := ["D1"],
    generated := 1, blocks := [] }

def pyrNew : Pyramid :=
  { symbol := some ("EURUSD"), style := some ("daily"), pyramid_structure := ["D1"],
    generated := 2, blocks := [] }

def rawA : RawData := [("D1", [mkRow 0 1 2 0 1])]

def rawNew : RawData := [("D1", [mkRow 1440 1 2 0 1])]

/-- A cache state holding the old entry (pyrA, rawA) for EURUSD. -/
def stA : EngineState :=
  { pyramid_cache := [("EURUSD", pyrA)], raw_data_cache := [("EURUSD", rawA)],
    current_symbol := some ("EURUSD"), latest_pyramid := some pyrA,
    latest_raw_data := some rawA }

/-- A cache state with no entry at all. -/
def stEmpty : EngineState :=
  { pyramid_cache := [], raw_data_cache := [], current_symbol := some ("EURUSD"),
    latest_pyramid := none, latest_raw_data := none }

/-
  Theorems.
-/

/-- The list form of the containment check: true exactly when every block in
the list has its time inside the parent interval and recursively satisfies
the check. -/
theorem blocksBoundsOk_iff (t : Int) (tf : String) (l : List Block) :
    blocksBoundsOk t tf l = true ↔
      ∀ b ∈ l, (t ≤ b.time ∧ b.time < t + durationMinutes tf) ∧ b.boundsOk = true := by
  induction l with
  | nil => simp [blocksBoundsOk]
  | cons b bs ih => simp [blocksBoundsOk, ih, and_assoc]

/-- Every block produced by get_children has its time in the parent's
half-open interval and recursively satisfies the containment check. -/
theorem get_children_mem (rest : List String) :
    ∀ (data : String → List Row) (pt : Int) (ptf : String) (b : Block),
      b ∈ get_children data rest pt ptf →
        (pt ≤ b.time ∧ b.time < pt + durationMinutes ptf) ∧ b.boundsOk = true := by
  induction rest with
  | nil => intro data pt ptf b hb; simp [get_children] at hb
  | cons ctf rest' ih =>
    intro data pt ptf b hb
    simp only [get_children] at hb
    by_cases hdf : data ctf = []
    · rw [if_pos hdf] at hb; simp at hb
    · rw [if_neg hdf] at hb
      rw [List.mem_map] at hb
      obtain ⟨r, hr, rfl⟩ := hb
      rw [List.mem_filter] at hr
      obtain ⟨hrmem, hrP⟩ := hr
      simp only [inParentRange, Bool.and_eq_true, decide_eq_true_eq] at hrP
      refine ⟨by simpa [mkBlock, Block.time] using hrP, ?_⟩
      simp only [mkBlock, Block.boundsOk]
      rw [blocksBoundsOk_iff]
      intro b2 hb2
      exact ih data r.time ctf b2 hb2

/-- C1: in every pyramid returned by build_pyramid_json, every block of the
tree contains each of its children in time: parent.time <= child.time <
parent.time + duration(parent.timeframe), where the duration is the fixed
minute length of the parent's timeframe. -/
theorem c1_pyramid_child_containment (cfg : EngineConfig) (data : String → List Row) (now : Int) :
    ((build_pyramid_json cfg data now).blocks.all Block.boundsOk) = true := by
  unfold build_pyramid_json
  by_cases hbase : data cfg.baseTf = []
  · rw [if_pos hbase]; rfl
  · rw [if_neg hbase]
    simp only [List.all_eq_true]
    intro b hb
    simp only [List.mem_map] at hb
    obtain ⟨r, hr, rfl⟩ := hb
    simp only [mkBlock, Block.boundsOk]
    rw [blocksBoundsOk_iff]
    intro b2 hb2
    exact get_children_mem cfg.pyramid_structure.tail data r.time cfg.baseTf b2 hb2

/-- C2 counterexample: with the fetcher's newest-first storage, the D1 root
block's children are the in-range H4 candles in descending time order
[720, 480, 240, 0], which is not sorted ascending by time — refuting the
claim that children come out ascending. -/
theorem c2_children_descending_counterexample :
    ((build_pyramid_json cfgB dataB 0).blocks.head?.map (fun b => b.children.map Block.time))
      = some [720, 480, 240, 0]
    ∧ ¬ List.Sorted (fun a b => a ≤ b) ([720, 480, 240, 0] : List Int) :=
  ⟨by decide, by decide⟩

/-- C2 amended: a parent's children list contains exactly the candles of the
next-finer timeframe's series whose timestamps fall in
[t, t + duration(parent tf)), carried over field by field, in the series'
storage order; when that series is stored newest-first (descending by time,
as the fetcher supplies), the children come out descending by time, not
ascending. -/
theorem c2_children_exact_in_storage_order (data : String → List Row) (ctf : String)
    (rest : List String) (pt : Int) (ptf : String)
    (hdesc : List.Sorted (fun a b => b ≤ a) ((data ctf).map Row.time)) :
    (get_children data (ctf :: rest) pt ptf).map Block.time
      = ((data ctf).filter (inParentRange pt (pt + durationMinutes ptf))).map Row.time
    ∧ (get_children data (ctf :: rest) pt ptf).map
        (fun b => (b.tf, b.o, b.h, b.l, b.c, b.volume, b.dir))
      = ((data ctf).filter (inParentRange pt (pt + durationMinutes ptf))).map
        (fun r => (ctf, round5 r.o, round5 r.h, round5 r.l, round5 r.c, r.volume, dirOf r))
    ∧ List.Sorted (fun a b => b ≤ a)
        ((get_children data (ctf :: rest) pt ptf).map Block.time) := by
  have hmap : (get_children data (ctf :: rest) pt ptf).map Block.time
      = ((data ctf).filter (inParentRange pt (pt + durationMinutes ptf))).map Row.time := by
    by_cases hdf : data ctf = []
    · simp [get_children, hdf]
    · simp [get_children, hdf, List.map_map, mkBlock, Block.time, Function.comp]
  have hdp : List.Pairwise (fun a b : Row => b.time ≤ a.time) (data ctf) :=
    List.pairwise_map.mp hdesc
  refine ⟨hmap, ?_, ?_⟩
  · by_cases hdf : data ctf = []
    · simp [get_children, hdf]
    · simp [get_children, hdf, List.map_map, mkBlock, Block.tf, Block.o, Block.h, Block.l,
        Block.c, Block.volume, Block.dir, Function.comp]
  · rw [hmap]
    exact List.pairwise_map.mpr (hdp.filter (inParentRange pt (pt + durationMinutes ptf)))

/-- C2 amended witness: the amended statement at a concrete newest-first H4
series under a D1 parent starting at minute 0. -/
theorem c2_children_exact_witness :
    ((get_children dataDesc (("H4") :: []) 0 ("D1")).map Block.time
      = ((dataDesc ("H4")).filter (inParentRange 0 (0 + durationMinutes ("D1")))).map Row.time)
    ∧ ((get_children dataDesc (("H4") :: []) 0 ("D1")).map
        (fun b => (b.tf, b.o, b.h, b.l, b.c, b.volume, b.dir))
      = ((dataDesc ("H4")).filter (inParentRange 0 (0 + durationMinutes ("D1")))).map
        (fun r => (("H4" : String), round5 r.o, round5 r.h, round5 r.l, round5 r.c, r.volume, dirOf r)))
    ∧ List.Sorted (fun a b => b ≤ a)
        ((get_children dataDesc (("H4") :: []) 0 ("D1")).map Block.time) :=
  c2_children_exact_in_storage_order dataDesc ("H4") [] 0 ("D1") (by decide)

/-- C3: when the base timeframe's series is present and non-empty, the
pyramid has exactly min(extract_count, number of base candles) root blocks. -/
theorem c3_root_block_count (cfg : EngineConfig) (data : String → List Row) (now : Int)
    (h : data cfg.baseTf ≠ []) :
    (build_pyramid_json cfg data now).blocks.length
      = min cfg.extract_count (data cfg.baseTf).length := by
  unfold build_pyramid_json
  rw [if_neg h]
  simp [List.length_take]

/-- C3 witness: the root bound at a concrete one-candle D1 series with
extract_count 10. -/
theorem c3_root_block_count_witness :
    (build_pyramid_json cfgB dataB 0).blocks.length
      = min cfgB.extract_count ((dataB (cfgB.baseTf)).length) :=
  c3_root_block_count cfgB dataB 0 (by decide)

/-- C4 counterexample: two calls of build_pyramid_json on identical series
and configuration but at different wall-clock instants differ, because the
generated field records datetime.now() of each call — refuting full
structural identity of the two outputs. -/
theorem c4_two_calls_differ_counterexample :
    build_pyramid_json cfgB dataB 0 ≠ build_pyramid_json cfgB dataB 1 := by
  intro h
  have h2 : (0 : Int) = 1 := by
    have h3 := congrArg Pyramid.generated h
    rwa [show (build_pyramid_json cfgB dataB 0).generated = 0 from rfl,
         show (build_pyramid_json cfgB dataB 1).generated = 1 from rfl] at h3
  exact absurd h2 (by decide)

/-- C4 amended: build_pyramid_json is deterministic in everything except the
generated timestamp: two calls with identical series and configuration
produce identical block trees (all field values and child ordering) and
identical symbol, style and structure fields; only generated follows the
wall clock of the call. -/
theorem c4_deterministic_but_generated (cfg : EngineConfig) (data : String → List Row)
    (n1 n2 : Int) :
    (build_pyramid_json cfg data n1).blocks = (build_pyramid_json cfg data n2).blocks
    ∧ (build_pyramid_json cfg data n1).symbol = (build_pyramid_json cfg data n2).symbol
    ∧ (build_pyramid_json cfg data n1).style = (build_pyramid_json cfg data n2).style
    ∧ (build_pyramid_json cfg data n1).pyramid_structure
        = (build_pyramid_json cfg data n2).pyramid_structure := by
  unfold build_pyramid_json
  by_cases h : data cfg.baseTf = [] <;> simp [h, create_empty_pyramid]

/-- The gain series of the RSI computation is pointwise nonnegative. -/
theorem gainAt_nonneg (close : List Rat) (i : Nat) : 0 ≤ gainAt close i := by
  unfold gainAt
  cases h : deltaAt close i with
  | none => simp
  | some d =>
    simp only
    split
    · linarith
    · exact le_refl 0

/-- The loss series of the RSI computation is pointwise nonnegative. -/
theorem lossAt_nonneg (close : List Rat) (i : Nat) : 0 ≤ lossAt close i := by
  unfold lossAt
  cases h : deltaAt close i with
  | none => simp
  | some d =>
    simp only
    split
    · linarith
    · exact le_refl 0

/-- A rolling mean of a nonnegative series is nonnegative. -/
theorem rollingMean_nonneg (f : Nat → Rat) (hf : ∀ j, 0 ≤ f j) (w i : Nat) :
    0 ≤ rollingMean f w i := by
  unfold rollingMean
  apply div_nonneg
  · apply List.sum_nonneg
    intro x hx
    rw [List.mem_map] at hx
    obtain ⟨j, _, rfl⟩ := hx
    exact hf j
  · exact_mod_cast Nat.zero_le _

/-- rs = avg gain / guarded avg loss is nonnegative. -/
theorem rsAt_nonneg (close : List Rat) (period i : Nat) : 0 ≤ rsAt close period i := by
  unfold rsAt
  apply div_nonneg (rollingMean_nonneg _ (gainAt_nonneg close) _ _)
  split
  · norm_num [eps]
  · exact rollingMean_nonneg _ (lossAt_nonneg close) _ _

/-- Each RSI value 100 - 100/(1+rs) lies in [0, 100]. -/
theorem rsiAt_bounds (close : List Rat) (period i : Nat) :
    0 ≤ rsiAt close period i ∧ rsiAt close period i ≤ 100 := by
  have hrs := rsAt_nonneg close period i
  unfold rsiAt
  have h1 : (1:Rat) ≤ 1 + rsAt close period i := by linarith
  have h0 : (0:Rat) < 1 + rsAt close period i := by linarith
  constructor
  · have hle : 100 / (1 + rsAt close period i) ≤ 100 := div_le_self (by norm_num) h1
    linarith
  · have hge : 0 ≤ 100 / (1 + rsAt close period i) := le_of_lt (div_pos (by norm_num) h0)
    linarith

/-- C5: for every input close series (in particular any of length at least
20) and every RSI period override, every entry of the RSI column produced by
calculate_technical_indicators lies in [0, 100]. -/
theorem c5_rsi_in_bounds (close : List Rat) (period : Nat) :
    (rsiColumn close period).all
      (fun q => decide (0 ≤ q) && decide (q ≤ 100)) = true := by
  unfold rsiColumn
  split
  · rfl
  · simp only [List.all_eq_true]
    intro q hq
    rw [List.mem_map] at hq
    obtain ⟨i, _, rfl⟩ := hq
    have h := rsiAt_bounds close period i
    simp only [Bool.and_eq_true, decide_eq_true_eq]
    exact ⟨h.1, h.2⟩

/-- C6 counterexample: on a candle whose close sits one millionth above its
low the code's wick ratio (denominator replaced only on exact zero) differs
from the claimed |high-close| / max(close-low, eps), and symmetrically for
body strength on a candle with a one-millionth range — refuting the claimed
formulas. -/
theorem c6_epsilon_formula_counterexample :
    wickRatio rowTiny ≠ wickRatioSpec rowTiny
    ∧ bodyStrength rowTiny2 ≠ bodyStrengthSpec rowTiny2 := by
  constructor
  · norm_num [wickRatio, wickRatioSpec, rowTiny, eps, abs_of_nonneg]
  · norm_num [bodyStrength, bodyStrengthSpec, rowTiny2, eps, abs_of_nonneg]

/-- C6 amended: the wick-ratio column equals |high - close| divided by
(close - low) with eps substituted only when close - low is exactly zero,
and similarly body strength with the range; these agree with the claimed
max(denominator, eps) formulas whenever the denominator is zero or at least
eps (so in particular on every candle with high == low or close == low),
and the guarded denominators are never zero, so both values are
well-defined. -/
theorem c6_epsilon_guard_amended (r : Row)
    (h1 : r.c - r.l = 0 ∨ eps ≤ r.c - r.l)
    (h2 : r.h - r.l = 0 ∨ eps ≤ r.h - r.l) :
    wickRatio r = wickRatioSpec r
    ∧ bodyStrength r = bodyStrengthSpec r
    ∧ (if r.c - r.l = 0 then eps else r.c - r.l) ≠ 0
    ∧ (if r.h - r.l = 0 then eps else r.h - r.l) ≠ 0 := by
  have heps : (0:Rat) < eps := by norm_num [eps]
  refine ⟨?_, ?_, ?_, ?_⟩
  · unfold wickRatio wickRatioSpec
    rcases h1 with h | h
    · rw [if_pos h, h, max_eq_right (le_of_lt heps), abs_div, abs_of_pos heps]
    · have hpos : 0 < r.c - r.l := lt_of_lt_of_le heps h
      rw [if_neg (ne_of_gt hpos), max_eq_left h, abs_div, abs_of_pos hpos]
  · unfold bodyStrength bodyStrengthSpec
    rcases h2 with h | h
    · rw [if_pos h, h, max_eq_right (le_of_lt heps)]
    · have hpos : 0 < r.h - r.l := lt_of_lt_of_le heps h
      rw [if_neg (ne_of_gt hpos), max_eq_left h]
  · rcases h1 with h | h
    · rw [if_pos h]; exact ne_of_gt heps
    · have hpos : 0 < r.c - r.l := lt_of_lt_of_le heps h
      rw [if_neg (ne_of_gt hpos)]; exact ne_of_gt hpos
  · rcases h2 with h | h
    · rw [if_pos h]; exact ne_of_gt heps
    · have hpos : 0 < r.h - r.l := lt_of_lt_of_le heps h
      rw [if_neg (ne_of_gt hpos)]; exact ne_of_gt hpos

/-- C6 amended witness: the amended statement at a flat doji candle, where
both denominators are exactly zero. -/
theorem c6_epsilon_guard_witness :
    wickRatio rowDoji = wickRatioSpec rowDoji
    ∧ bodyStrength rowDoji = bodyStrengthSpec rowDoji
    ∧ (if rowDoji.c - rowDoji.l = 0 then eps else rowDoji.c - rowDoji.l) ≠ 0
    ∧ (if rowDoji.h - rowDoji.l = 0 then eps else rowDoji.h - rowDoji.l) ≠ 0 :=
  c6_epsilon_guard_amended rowDoji (Or.inl (by norm_num [rowDoji]))
    (Or.inl (by norm_num [rowDoji]))

/-- C7: for a symbol with no cache entry, get_pyramid_for_symbol never fails
(it is a total function here) and two successive calls return the same empty
entry: the same pyramid with symbol field equal to the request and an empty
blocks list, the second call leaving the cache unchanged. -/
theorem c7_lazy_init_idempotent (cfg : EngineConfig) (st : EngineState) (symbol : String)
    (n1 n2 : Int) (h : st.pyramid_cache.lookup symbol = none) :
    (get_pyramid_for_symbol cfg ((get_pyramid_for_symbol cfg st symbol n1).2) symbol n2).1
      = (get_pyramid_for_symbol cfg st symbol n1).1
    ∧ (get_pyramid_for_symbol cfg st symbol n1).1.symbol = some symbol
    ∧ (get_pyramid_for_symbol cfg st symbol n1).1.blocks = []
    ∧ (get_pyramid_for_symbol cfg ((get_pyramid_for_symbol cfg st symbol n1).2) symbol n2).2
      = (get_pyramid_for_symbol cfg st symbol n1).2 := by
  simp [get_pyramid_for_symbol, h, List.lookup, create_empty_pyramid]

/-- C7 witness: the lazy-init idempotence at a concrete empty cache and the
unseen symbol GBPUSD. -/
theorem c7_lazy_init_witness :
    (get_pyramid_for_symbol cfgB ((get_pyramid_for_symbol cfgB stEmpty ("GBPUSD") 5).2) ("GBPUSD") 9).1
      = (get_pyramid_for_symbol cfgB stEmpty ("GBPUSD") 5).1
    ∧ (get_pyramid_for_symbol cfgB stEmpty ("GBPUSD") 5).1.symbol = some ("GBPUSD")
    ∧ (get_pyramid_for_symbol cfgB stEmpty ("GBPUSD") 5).1.blocks = []
    ∧ (get_pyramid_for_symbol cfgB ((get_pyramid_for_symbol cfgB stEmpty ("GBPUSD") 5).2) ("GBPUSD") 9).2
      = (get_pyramid_for_symbol cfgB stEmpty ("GBPUSD") 5).2 :=
  c7_lazy_init_idempotent cfgB stEmpty ("GBPUSD") 5 9 rfl

/-- C8 counterexample: for an input series stored oldest-first, get_chart_data
returns the points newest-first (x values [60000, 0]), which is not
chronological — refuting order-correctness regardless of storage order. -/
theorem c8_ascending_input_counterexample :
    ¬ List.Sorted (fun a b => a ≤ b) ((get_chart_data dataAsc ("M1")).map ChartPoint.x) := by
  decide

/-- C8 amended: get_chart_data returns the empty list when the timeframe is
absent or its series empty, and returns the reverse of the storage order;
hence the output is chronological (oldest first) exactly when the input
series is stored newest-first, as the fetcher supplies it. -/
theorem c8_chart_data_reverses_storage (data : String → List Row) (tf : String)
    (hdesc : List.Sorted (fun a b => b ≤ a) ((data tf).map Row.time)) :
    (data tf = [] → get_chart_data data tf = [])
    ∧ List.Sorted (fun a b => a ≤ b) ((get_chart_data data tf).map ChartPoint.x) := by
  refine ⟨fun h => by simp [get_chart_data, h], ?_⟩
  unfold get_chart_data
  by_cases h : data tf = []
  · simp [h]
  · rw [if_neg h, List.map_reverse, List.map_map]
    have hdp : List.Pairwise (fun a b : Row => b.time ≤ a.time) (data tf) :=
      List.pairwise_map.mp hdesc
    refine List.pairwise_reverse.mpr (List.pairwise_map.mpr (hdp.imp ?_))
    intro a b hab
    simpa [rowToChartPoint, Function.comp] using
      mul_le_mul_of_nonneg_right hab (by norm_num : (0:Int) ≤ 60000)

/-- C8 amended witness: the amended statement at a concrete newest-first H4
series. -/
theorem c8_chart_data_witness :
    (dataDesc ("H4") = [] → get_chart_data dataDesc ("H4") = [])
    ∧ List.Sorted (fun a b => a ≤ b) ((get_chart_data dataDesc ("H4")).map ChartPoint.x) :=
  c8_chart_data_reverses_storage dataDesc ("H4") (by decide)

/-- C9 counterexample: after the first of the two cache assignments of
update_symbol_data (the pyramid write) a reader observes the new pyramid
paired with the old raw-data series — a state equal to neither the full old
entry nor the full new entry, refuting atomic whole-entry replacement. -/
theorem c9_torn_read_counterexample :
    readEntry (updatePyramidCache stA ("EURUSD") pyrNew) ("EURUSD") = (some pyrNew, some rawA)
    ∧ (some pyrNew, some rawA) ≠ ((some pyrA, some rawA) : Option Pyramid × Option RawData)
    ∧ (some pyrNew, some rawA) ≠ ((some pyrNew, some rawNew) : Option Pyramid × Option RawData)
    ∧ readEntry stA ("EURUSD") = (some pyrA, some rawA) := by
  refine ⟨rfl, ?_, ?_, rfl⟩
  · intro hmix
    have hgen := congrArg (fun q => q.1.map Pyramid.generated) hmix
    simp [pyrNew, pyrA] at hgen
  · intro hmix
    have hraw := congrArg (fun q => q.2) hmix
    simp [rawA, rawNew, mkRow] at hraw

/-- C9 amended: update_symbol_data replaces the entry in two separate
assignments, pyramid cache first and raw-data cache second; once both (and
the legacy tail) have run, a reader observes the full new pair, while a
reader scheduled between the two assignments observes the new pyramid paired
with whatever raw data was cached before. -/
theorem c9_two_step_replacement (st : EngineState) (symbol : String) (rd : RawData)
    (pd : Pyramid) :
    readEntry (update_symbol_data st symbol rd pd) symbol = (some pd, some rd)
    ∧ readEntry (updatePyramidCache st symbol pd) symbol
        = (some pd, st.raw_data_cache.lookup symbol) := by
  constructor
  · unfold update_symbol_data updateLegacy
    split <;> simp [updateRawCache, updatePyramidCache, readEntry, List.lookup]
  · simp [updatePyramidCache, readEntry, List.lookup]

/-- C10: calculate_support_resistance returns empty support and resistance
lists for every series shorter than 40 rows (twice the default lookback of
20), regardless of the price action. -/
theorem c10_sr_short_series_empty (df : List Row) (h : df.length < 40) :
    calculate_support_resistance df 20 = ([], []) := by
  unfold calculate_support_resistance
  rw [if_pos (show df.length < 20 * 2 by omega)]

/-- C10 witness: a concrete 39-candle series with strictly increasing highs
still yields empty support and resistance lists. -/
theorem c10_sr_short_series_witness : calculate_support_resistance df39 20 = ([], []) :=
  c10_sr_short_series_empty df39 (by decide)

end MegaFlowz
